import Mathlib

/-!
Shallow embedding of the vmath library of `defold-javascript`
(`src/packages/core/src/vmath.ts`).

JavaScript numbers are modelled as exact rationals (`ℚ`); the claims under
study are about which arithmetic expressions the code computes and which
control-flow branch it takes, not about floating-point rounding.

Each class `T` with a backing field `data : T.Data` is embedded as a
structure `TData` of named numeric fields together with a wrapper structure
`T` holding a `data` field; getters are embedded as projection functions.
Thrown `TypeError`s are embedded as `Except.error` carrying the exact
message string of the source.
-/

/-- Mathlib's quaternion algebra over `ℚ`, aliased before the `Vmath`
namespace is opened (inside it, `Quaternion` refers to the embedded class). -/
abbrev HamiltonQ : Type := Quaternion ℚ

namespace Vmath

/-- Backing data of a `Vector3` (`Vector3.Data` in the source): flat record
of the three named numeric fields `x`, `y`, `z`. -/
structure Vector3Data where
  x : ℚ
  y : ℚ
  z : ℚ
deriving DecidableEq

/-- The `Vector3` class: a wrapper around its backing data. -/
structure Vector3 where
  data : Vector3Data
deriving DecidableEq

/-- Getter `Vector3.x`: `return this.data.x`. -/
def Vector3.x (v : Vector3) : ℚ := v.data.x

/-- Getter `Vector3.y`: `return this.data.y`. -/
def Vector3.y (v : Vector3) : ℚ := v.data.y

/-- Getter `Vector3.z`: `return this.data.z`. -/
def Vector3.z (v : Vector3) : ℚ := v.data.z

/-- The `Vector3` constructor branch taken for a `Vector3.Data` argument:
`this.data = x` (the backing data is installed as-is). -/
def Vector3.ofData (d : Vector3Data) : Vector3 := ⟨d⟩

/-- Modelled from the spec: the component-wise `Vector3` constructor
delegates to the host primitive `lua.vmath.vector3`, which is not part of
this repository; per the spec (§6, §3) the host returns a backing value
with the flat named numeric fields `x`, `y`, `z` set to the supplied
components. -/
def Vector3.mk3 (x y z : ℚ) : Vector3 := ⟨⟨x, y, z⟩⟩

/-- `Vector3.add(v1, v2)`: `new Vector3(v1.x + v2.x, v1.y + v2.y, v1.z + v2.z)`. -/
def Vector3.add (v1 v2 : Vector3) : Vector3 :=
  Vector3.mk3 (v1.x + v2.x) (v1.y + v2.y) (v1.z + v2.z)

/-- `Vector3.sub(v1, v2)`: `new Vector3(v1.x - v2.x, v1.y - v2.y, v1.z - v2.z)`. -/
def Vector3.sub (v1 v2 : Vector3) : Vector3 :=
  Vector3.mk3 (v1.x - v2.x) (v1.y - v2.y) (v1.z - v2.z)

/-- `Vector3.neg(v1)`: `new Vector3(-v1.x, -v1.y, -v1.z)`. -/
def Vector3.neg (v1 : Vector3) : Vector3 :=
  Vector3.mk3 (-v1.x) (-v1.y) (-v1.z)

/-- `Vector3.mul(v1, n)`: `new Vector3(v1.x * n, v1.y * n, v1.z * n)`. -/
def Vector3.mul (v1 : Vector3) (n : ℚ) : Vector3 :=
  Vector3.mk3 (v1.x * n) (v1.y * n) (v1.z * n)

/-- `Vector3.div(v1, n)`: `return Vector3.mul(v1, 1 / n)`. -/
def Vector3.div (v1 : Vector3) (n : ℚ) : Vector3 :=
  Vector3.mul v1 (1 / n)

/-- Backing data of a `Vector4` (`Vector4.Data` in the source). -/
structure Vector4Data where
  x : ℚ
  y : ℚ
  z : ℚ
  w : ℚ
deriving DecidableEq

/-- The `Vector4` class: a wrapper around its backing data. -/
structure Vector4 where
  data : Vector4Data
deriving DecidableEq

/-- Getter `Vector4.x`. -/
def Vector4.x (v : Vector4) : ℚ := v.data.x

/-- Getter `Vector4.y`. -/
def Vector4.y (v : Vector4) : ℚ := v.data.y

/-- Getter `Vector4.z`. -/
def Vector4.z (v : Vector4) : ℚ := v.data.z

/-- Getter `Vector4.w`. -/
def Vector4.w (v : Vector4) : ℚ := v.data.w

/-- The `Vector4` constructor branch taken for a `Vector4.Data` argument:
`this.data = x`. -/
def Vector4.ofData (d : Vector4Data) : Vector4 := ⟨d⟩

/-- Modelled from the spec: the component-wise `Vector4` constructor
delegates to the host primitive `lua.vmath.vector4`, which is not part of
this repository; per the spec (§6, §3) it returns a backing value with the
named fields `x`, `y`, `z`, `w` set to the supplied components. -/
def Vector4.mk4 (x y z w : ℚ) : Vector4 := ⟨⟨x, y, z, w⟩⟩

/-- `Vector4.add(v1, v2)`. -/
def Vector4.add (v1 v2 : Vector4) : Vector4 :=
  Vector4.mk4 (v1.x + v2.x) (v1.y + v2.y) (v1.z + v2.z) (v1.w + v2.w)

/-- `Vector4.sub(v1, v2)`. -/
def Vector4.sub (v1 v2 : Vector4) : Vector4 :=
  Vector4.mk4 (v1.x - v2.x) (v1.y - v2.y) (v1.z - v2.z) (v1.w - v2.w)

/-- `Vector4.neg(v1)`. -/
def Vector4.neg (v1 : Vector4) : Vector4 :=
  Vector4.mk4 (-v1.x) (-v1.y) (-v1.z) (-v1.w)

/-- `Vector4.mul(v1, n)`. -/
def Vector4.mul (v1 : Vector4) (n : ℚ) : Vector4 :=
  Vector4.mk4 (v1.x * n) (v1.y * n) (v1.z * n) (v1.w * n)

/-- `Vector4.div(v1, n)`: `return Vector4.mul(v1, 1 / n)`. -/
def Vector4.div (v1 : Vector4) (n : ℚ) : Vector4 :=
  Vector4.mul v1 (1 / n)

/-- Backing data of a `Quaternion` (`Quaternion.Data` in the source). -/
structure QuaternionData where
  x : ℚ
  y : ℚ
  z : ℚ
  w : ℚ
deriving DecidableEq

/-- The `Quaternion` class: a wrapper around its backing data. -/
structure Quaternion where
  data : QuaternionData
deriving DecidableEq

/-- Getter `Quaternion.x`. -/
def Quaternion.x (q : Quaternion) : ℚ := q.data.x

/-- Getter `Quaternion.y`. -/
def Quaternion.y (q : Quaternion) : ℚ := q.data.y

/-- Getter `Quaternion.z`. -/
def Quaternion.z (q : Quaternion) : ℚ := q.data.z

/-- Getter `Quaternion.w`. -/
def Quaternion.w (q : Quaternion) : ℚ := q.data.w

/-- Modelled from the spec: the component-wise `Quaternion` constructor
delegates to the host primitive `lua.vmath.quat`, not part of this
repository; per the spec it returns a backing value with the named fields
set to the supplied components. -/
def Quaternion.mk4 (x y z w : ℚ) : Quaternion := ⟨⟨x, y, z, w⟩⟩

/-- Modelled from the spec: `new Quaternion()` delegates to
`lua.vmath.quat()` (not part of this repository); per the source's own doc
comment and the spec, the resulting identity quaternion is `(0, 0, 0, 1)`. -/
def Quaternion.identity : Quaternion := Quaternion.mk4 0 0 0 1

/-- `Quaternion.mul(q1, q2)` from the source:
destructures `(x1,y1,z1,w1)` and `(x2,y2,z2,w2)` and returns
`new Quaternion(w1*x2 + x1*w2 + y1*z2 - z1*y2, w1*y2 + y1*w2 + z1*x2 - x1*z2,
w1*z2 + z1*w2 + x1*y2 - y1*x2, w1*w2 - x1*x2 - y1*y2 - z1*z2)`. -/
def Quaternion.mul (q1 q2 : Quaternion) : Quaternion :=
  Quaternion.mk4
    (q1.w * q2.x + q1.x * q2.w + q1.y * q2.z - q1.z * q2.y)
    (q1.w * q2.y + q1.y * q2.w + q1.z * q2.x - q1.x * q2.z)
    (q1.w * q2.z + q1.z * q2.w + q1.x * q2.y - q1.y * q2.x)
    (q1.w * q2.w - q1.x * q2.x - q1.y * q2.y - q1.z * q2.z)

/-- Interpretation of an embedded quaternion as a Mathlib quaternion
(`re = w`, `imI = x`, `imJ = y`, `imK = z`), used to compare
`Quaternion.mul` with the mathematical Hamilton product. -/
def Quaternion.toHamilton (q : Quaternion) : HamiltonQ := ⟨q.w, q.x, q.y, q.z⟩

/-- C1: `Quaternion.mul(q1, q2)` returns exactly the Hamilton product: the
components are the four stated bilinear expressions, and the map to
Mathlib's quaternion algebra sends `Quaternion.mul` to true quaternion
multiplication. -/
theorem quaternion_mul_is_hamilton_product (q1 q2 : Quaternion) :
    (Quaternion.mul q1 q2).x
        = q1.w * q2.x + q1.x * q2.w + q1.y * q2.z - q1.z * q2.y ∧
    (Quaternion.mul q1 q2).y
        = q1.w * q2.y + q1.y * q2.w + q1.z * q2.x - q1.x * q2.z ∧
    (Quaternion.mul q1 q2).z
        = q1.w * q2.z + q1.z * q2.w + q1.x * q2.y - q1.y * q2.x ∧
    (Quaternion.mul q1 q2).w
        = q1.w * q2.w - q1.x * q2.x - q1.y * q2.y - q1.z * q2.z ∧
    Quaternion.toHamilton (Quaternion.mul q1 q2)
        = Quaternion.toHamilton q1 * Quaternion.toHamilton q2 := by
  refine ⟨rfl, rfl, rfl, rfl, ?_⟩
  ext <;>
    simp [Quaternion.toHamilton, Quaternion.mul, Quaternion.mk4,
      Quaternion.x, Quaternion.y, Quaternion.z, Quaternion.w] <;>
    ring

/-- C7: the identity quaternion `(0,0,0,1)` is a right and a left identity
for `Quaternion.mul`: both products have exactly the same components as `q`. -/
theorem quaternion_identity_left_right (q : Quaternion) :
    (Quaternion.mul q Quaternion.identity).x = q.x ∧
    (Quaternion.mul q Quaternion.identity).y = q.y ∧
    (Quaternion.mul q Quaternion.identity).z = q.z ∧
    (Quaternion.mul q Quaternion.identity).w = q.w ∧
    (Quaternion.mul Quaternion.identity q).x = q.x ∧
    (Quaternion.mul Quaternion.identity q).y = q.y ∧
    (Quaternion.mul Quaternion.identity q).z = q.z ∧
    (Quaternion.mul Quaternion.identity q).w = q.w := by
  refine ⟨?_, ?_, ?_, ?_, ?_, ?_, ?_, ?_⟩ <;>
    simp [Quaternion.mul, Quaternion.identity, Quaternion.mk4,
      Quaternion.x, Quaternion.y, Quaternion.z, Quaternion.w]

/-- Backing data of a `Matrix4` (`Matrix4.Data` in the source).

Modelled from the spec: the source type lists both four column vectors
`c0..c3` and sixteen scalars `m00..m33`, the correspondence among which is
maintained by the host runtime (not part of this repository). Per the
spec's data model ("4 column vectors (Vector4 each) equivalently 16 scalar
components m00..m33 ... column-major layout"), the sixteen scalars are the
column-major layout of the matrix: `m00, m01, m02, m03` form column 0, and
in general `mJI` is the entry in column `J`, row `I`. Only the sixteen
scalars are stored here; the columns are derived views. -/
structure Matrix4Data where
  m00 : ℚ
  m01 : ℚ
  m02 : ℚ
  m03 : ℚ
  m10 : ℚ
  m11 : ℚ
  m12 : ℚ
  m13 : ℚ
  m20 : ℚ
  m21 : ℚ
  m22 : ℚ
  m23 : ℚ
  m30 : ℚ
  m31 : ℚ
  m32 : ℚ
  m33 : ℚ
deriving DecidableEq

/-- Derived view `data.c0` (column 0) of the backing data. -/
def Matrix4Data.c0 (d : Matrix4Data) : Vector4Data := ⟨d.m00, d.m01, d.m02, d.m03⟩

/-- Derived view `data.c1` (column 1) of the backing data. -/
def Matrix4Data.c1 (d : Matrix4Data) : Vector4Data := ⟨d.m10, d.m11, d.m12, d.m13⟩

/-- Derived view `data.c2` (column 2) of the backing data. -/
def Matrix4Data.c2 (d : Matrix4Data) : Vector4Data := ⟨d.m20, d.m21, d.m22, d.m23⟩

/-- Derived view `data.c3` (column 3) of the backing data. -/
def Matrix4Data.c3 (d : Matrix4Data) : Vector4Data := ⟨d.m30, d.m31, d.m32, d.m33⟩

/-- The `Matrix4` class: a wrapper around its backing data. -/
structure Matrix4 where
  data : Matrix4Data
deriving DecidableEq

/-- Getter `Matrix4.c0`: `return new Vector4(this.data.c0)`. -/
def Matrix4.c0 (m : Matrix4) : Vector4 := Vector4.ofData m.data.c0

/-- Getter `Matrix4.c1`. -/
def Matrix4.c1 (m : Matrix4) : Vector4 := Vector4.ofData m.data.c1

/-- Getter `Matrix4.c2`. -/
def Matrix4.c2 (m : Matrix4) : Vector4 := Vector4.ofData m.data.c2

/-- Getter `Matrix4.c3`. -/
def Matrix4.c3 (m : Matrix4) : Vector4 := Vector4.ofData m.data.c3

/-- Getter `Matrix4.m00`: `return this.data.m00` (and likewise below for
the other fifteen scalar getters). -/
def Matrix4.m00 (m : Matrix4) : ℚ := m.data.m00

/-- Getter `Matrix4.m01`. -/
def Matrix4.m01 (m : Matrix4) : ℚ := m.data.m01

/-- Getter `Matrix4.m02`. -/
def Matrix4.m02 (m : Matrix4) : ℚ := m.data.m02

/-- Getter `Matrix4.m03`. -/
def Matrix4.m03 (m : Matrix4) : ℚ := m.data.m03

/-- Getter `Matrix4.m10`. -/
def Matrix4.m10 (m : Matrix4) : ℚ := m.data.m10

/-- Getter `Matrix4.m11`. -/
def Matrix4.m11 (m : Matrix4) : ℚ := m.data.m11

/-- Getter `Matrix4.m12`. -/
def Matrix4.m12 (m : Matrix4) : ℚ := m.data.m12

/-- Getter `Matrix4.m13`. -/
def Matrix4.m13 (m : Matrix4) : ℚ := m.data.m13

/-- Getter `Matrix4.m20`. -/
def Matrix4.m20 (m : Matrix4) : ℚ := m.data.m20

/-- Getter `Matrix4.m21`. -/
def Matrix4.m21 (m : Matrix4) : ℚ := m.data.m21

/-- Getter `Matrix4.m22`. -/
def Matrix4.m22 (m : Matrix4) : ℚ := m.data.m22

/-- Getter `Matrix4.m23`. -/
def Matrix4.m23 (m : Matrix4) : ℚ := m.data.m23

/-- Getter `Matrix4.m30`. -/
def Matrix4.m30 (m : Matrix4) : ℚ := m.data.m30

/-- Getter `Matrix4.m31`. -/
def Matrix4.m31 (m : Matrix4) : ℚ := m.data.m31

/-- Getter `Matrix4.m32`. -/
def Matrix4.m32 (m : Matrix4) : ℚ := m.data.m32

/-- Getter `Matrix4.m33`. -/
def Matrix4.m33 (m : Matrix4) : ℚ := m.data.m33

/-- The `Matrix4` constructor branch taken for four `Vector4` arguments:
it starts from a fresh backing value and assigns the four column setters
`this.c0 = x; this.c1 = y; this.c2 = z; this.c3 = w`, so the backing
scalars end up holding the four given columns. -/
def Matrix4.ofCols (a b c d : Vector4) : Matrix4 :=
  ⟨⟨a.x, a.y, a.z, a.w, b.x, b.y, b.z, b.w,
    c.x, c.y, c.z, c.w, d.x, d.y, d.z, d.w⟩⟩

/-- The `xn instanceof Vector4` branch of `Matrix4.mul`: destructures the
sixteen scalar getters of `m1` and the components of `xn` and returns
`new Vector4(m00*x + m10*y + m20*z + m30*w, m01*x + m11*y + m21*z + m31*w,
m02*x + m12*y + m22*z + m32*w, m03*x + m13*y + m23*z + m33*w)`. -/
def Matrix4.mulVec (m1 : Matrix4) (xn : Vector4) : Vector4 :=
  Vector4.mk4
    (m1.m00 * xn.x + m1.m10 * xn.y + m1.m20 * xn.z + m1.m30 * xn.w)
    (m1.m01 * xn.x + m1.m11 * xn.y + m1.m21 * xn.z + m1.m31 * xn.w)
    (m1.m02 * xn.x + m1.m12 * xn.y + m1.m22 * xn.z + m1.m32 * xn.w)
    (m1.m03 * xn.x + m1.m13 * xn.y + m1.m23 * xn.z + m1.m33 * xn.w)

/-- The `xn instanceof Matrix4` branch of `Matrix4.mul`:
`new Matrix4(Matrix4.mul(m1, xn.c0), Matrix4.mul(m1, xn.c1),
Matrix4.mul(m1, xn.c2), Matrix4.mul(m1, xn.c3))`. -/
def Matrix4.mulMat (m1 xn : Matrix4) : Matrix4 :=
  Matrix4.ofCols
    (Matrix4.mulVec m1 xn.c0)
    (Matrix4.mulVec m1 xn.c1)
    (Matrix4.mulVec m1 xn.c2)
    (Matrix4.mulVec m1 xn.c3)

/-- The scalar (`else`) branch of `Matrix4.mul`:
`new Matrix4(Vector4.mul(m1.c0, xn), Vector4.mul(m1.c1, xn),
Vector4.mul(m1.c2, xn), Vector4.mul(m1.c3, xn))`. -/
def Matrix4.mulScalar (m1 : Matrix4) (xn : ℚ) : Matrix4 :=
  Matrix4.ofCols
    (Vector4.mul m1.c0 xn)
    (Vector4.mul m1.c1 xn)
    (Vector4.mul m1.c2 xn)
    (Vector4.mul m1.c3 xn)

/-- Component `i` of a `Vector4`, for indexed statements. -/
def Vector4.comp (v : Vector4) : Fin 4 → ℚ := ![v.x, v.y, v.z, v.w]

/-- Column `i` of a `Matrix4`, for indexed statements. -/
def Matrix4.col (m : Matrix4) : Fin 4 → Vector4 := ![m.c0, m.c1, m.c2, m.c3]

/-- The mathematical 4x4 matrix (row, column indexed) denoted by a
`Matrix4` under the column-major layout: entry `(i, j)` is the scalar
`mJI` (column `j`, row `i`). -/
def Matrix4.toMatrix (m : Matrix4) : Matrix (Fin 4) (Fin 4) ℚ :=
  !![m.m00, m.m10, m.m20, m.m30;
     m.m01, m.m11, m.m21, m.m31;
     m.m02, m.m12, m.m22, m.m32;
     m.m03, m.m13, m.m23, m.m33]

/-- C3: `Matrix4.mul(m, v)` on a `Vector4` is the standard matrix-vector
product: component `i` of the result is the dot product of row `i` of the
matrix with `(x, y, z, w)`, over all sixteen scalar components. -/
theorem matrix4_mul_vec_is_standard_product (m : Matrix4) (v : Vector4) (i : Fin 4) :
    (Matrix4.mulVec m v).comp i = ∑ j : Fin 4, m.toMatrix i j * v.comp j := by
  fin_cases i <;>
    simp [Matrix4.mulVec, Matrix4.toMatrix, Vector4.comp, Vector4.mk4,
      Vector4.x, Vector4.y, Vector4.z, Vector4.w, Fin.sum_univ_four]

/-- C2: `Matrix4.mul(m1, m2)` on two matrices is the standard 4x4 matrix
product, and it is computed column by column: column `i` of the result is
`Matrix4.mul(m1, m2.ci)`, the matrix-vector product of `m1` with column `i`
of `m2`. -/
theorem matrix4_mul_mat_is_standard_product (m1 m2 : Matrix4) :
    (Matrix4.mulMat m1 m2).toMatrix = m1.toMatrix * m2.toMatrix ∧
    ∀ i : Fin 4, (Matrix4.mulMat m1 m2).col i = Matrix4.mulVec m1 (m2.col i) := by
  constructor
  · ext i j
    fin_cases i <;> fin_cases j <;>
      simp [Matrix4.mulMat, Matrix4.mulVec, Matrix4.ofCols, Matrix4.toMatrix,
        Matrix4.c0, Matrix4.c1, Matrix4.c2, Matrix4.c3,
        Matrix4Data.c0, Matrix4Data.c1, Matrix4Data.c2, Matrix4Data.c3,
        Vector4.ofData, Vector4.mk4, Vector4.x, Vector4.y, Vector4.z, Vector4.w,
        Matrix4.m00, Matrix4.m01, Matrix4.m02, Matrix4.m03,
        Matrix4.m10, Matrix4.m11, Matrix4.m12, Matrix4.m13,
        Matrix4.m20, Matrix4.m21, Matrix4.m22, Matrix4.m23,
        Matrix4.m30, Matrix4.m31, Matrix4.m32, Matrix4.m33,
        Matrix.mul_apply, Fin.sum_univ_four]
  · intro i
    fin_cases i <;>
      simp [Matrix4.mulMat, Matrix4.ofCols, Matrix4.col,
        Matrix4.c0, Matrix4.c1, Matrix4.c2, Matrix4.c3,
        Matrix4Data.c0, Matrix4Data.c1, Matrix4Data.c2, Matrix4Data.c3,
        Vector4.ofData, Matrix4.mulVec, Vector4.mk4,
        Vector4.x, Vector4.y, Vector4.z, Vector4.w]

/-- Runtime value passed to the dispatched free functions, one constructor
per class discriminated by `instanceof` (plus `number` for
`typeof b === 'number'`). -/
inductive VMVal where
  | num : ℚ → VMVal
  | v3 : Vector3 → VMVal
  | v4 : Vector4 → VMVal
  | quat : Quaternion → VMVal
  | mat4 : Matrix4 → VMVal
deriving DecidableEq

/-- The runtime type name of a dispatched operand, as the source's error
messages spell it. -/
def VMVal.typeName : VMVal → String
  | .num _ => "number"
  | .v3 _ => "Vector3"
  | .v4 _ => "Vector4"
  | .quat _ => "Quaternion"
  | .mat4 _ => "Matrix4"

/-- The dispatched free function `add(a, b)`: checks
`a instanceof Vector3`, then `a instanceof Vector4`, with a nested check on
`b` in each branch; a thrown `TypeError(msg)` is embedded as
`Except.error msg`. -/
def add : VMVal → VMVal → Except String VMVal
  | .v3 a, b =>
    match b with
    | .v3 b => .ok (.v3 (Vector3.add a b))
    | _ => .error "Vector3 should add Vector3"
  | .v4 a, b =>
    match b with
    | .v4 b => .ok (.v4 (Vector4.add a b))
    | _ => .error "Vector4 should add Vector4"
  | _, _ => .error "not supported"

/-- The dispatched free function `sub(a, b)`. -/
def sub : VMVal → VMVal → Except String VMVal
  | .v3 a, b =>
    match b with
    | .v3 b => .ok (.v3 (Vector3.sub a b))
    | _ => .error "Vector3 should subtract Vector3"
  | .v4 a, b =>
    match b with
    | .v4 b => .ok (.v4 (Vector4.sub a b))
    | _ => .error "Vector4 should subtract Vector4"
  | _, _ => .error "not supported"

/-- The dispatched free function `neg(a)`: routes `Vector3`/`Vector4` to
the typed negation and throws `TypeError('not supported')` otherwise. -/
def neg : VMVal → Except String VMVal
  | .v3 a => .ok (.v3 (Vector3.neg a))
  | .v4 a => .ok (.v4 (Vector4.neg a))
  | _ => .error "not supported"

/-- The dispatched free function `mul(a, b)`: mirrors the source's
`instanceof`/`typeof` chain over the first operand (`Vector3`, `Vector4`,
`Matrix4`, `number`, `Quaternion`) and its nested checks on `b`. -/
def mul : VMVal → VMVal → Except String VMVal
  | .v3 a, b =>
    match b with
    | .num n => .ok (.v3 (Vector3.mul a n))
    | _ => .error "Vector3 should multiply number"
  | .v4 a, b =>
    match b with
    | .mat4 m => .ok (.v4 (Matrix4.mulVec m a))
    | .num n => .ok (.v4 (Vector4.mul a n))
    | _ => .error "Vector4 should multiply Matrix4 or number"
  | .mat4 a, b =>
    match b with
    | .v4 v => .ok (.v4 (Matrix4.mulVec a v))
    | .mat4 m => .ok (.mat4 (Matrix4.mulMat a m))
    | .num n => .ok (.mat4 (Matrix4.mulScalar a n))
    | _ => .error "Matrix4 should multiply Vector4, Matrix4 or number"
  | .num a, b =>
    match b with
    | .v3 v => .ok (.v3 (Vector3.mul v a))
    | .v4 v => .ok (.v4 (Vector4.mul v a))
    | .mat4 m => .ok (.mat4 (Matrix4.mulScalar m a))
    | _ => .error "number should multiply Vector3, Vector4 or Matrix4"
  | .quat a, b =>
    match b with
    | .quat q => .ok (.quat (Quaternion.mul a q))
    | _ => .error "Quaternion should multiply Quaternion"

/-- The dispatched free function `div(a, b)`. -/
def div : VMVal → VMVal → Except String VMVal
  | .v3 a, b =>
    match b with
    | .num n => .ok (.v3 (Vector3.div a n))
    | _ => .error "Vector3 should divide number"
  | .v4 a, b =>
    match b with
    | .num n => .ok (.v4 (Vector4.div a n))
    | _ => .error "Vector4 should divide number"
  | _, _ => .error "not supported"

/-- C4: dispatching `add` on a `Vector3` and a `Vector4` always throws the
typed error `TypeError('Vector3 should add Vector3')`; in particular it
never returns a (truncated or coerced) value. -/
theorem add_vector3_vector4_raises_type_mismatch (a : Vector3) (b : Vector4) :
    add (.v3 a) (.v4 b) = .error "Vector3 should add Vector3" ∧
    ∀ r : VMVal, add (.v3 a) (.v4 b) ≠ .ok r := by
  exact ⟨rfl, fun r h => by simp [add] at h⟩

/-- C6: dispatching `mul` on a `Vector4` and a `Matrix4` returns exactly
`Matrix4.mul(m, v)`: the vector-times-matrix case is redirected to
matrix-times-vector semantics. -/
theorem mul_vector4_matrix4_redirects (v : Vector4) (m : Matrix4) :
    mul (.v4 v) (.mat4 m) = .ok (.v4 (Matrix4.mulVec m v)) := rfl

/-- C10: a `Quaternion` operand is supported by the dispatched free
functions only in quaternion-times-quaternion `mul`: `mul(q, n)`,
`mul(n, q)`, `div(q, b)`, `add(q, b)`, `sub(q, b)` for every `b`, and
`neg(q)` all throw a `TypeError` instead of returning a value. -/
theorem quaternion_dispatch_rejections (q : Quaternion) (n : ℚ) (b : VMVal) :
    mul (.quat q) (.num n) = .error "Quaternion should multiply Quaternion" ∧
    mul (.num n) (.quat q) = .error "number should multiply Vector3, Vector4 or Matrix4" ∧
    div (.quat q) b = .error "not supported" ∧
    add (.quat q) b = .error "not supported" ∧
    sub (.quat q) b = .error "not supported" ∧
    neg (.quat q) = .error "not supported" := by
  refine ⟨rfl, rfl, ?_, ?_, ?_, rfl⟩ <;> cases b <;> rfl

/-- Whether the first character list is an initial segment of the second. -/
def leadsWith : List Char → List Char → Bool
  | [], _ => true
  | _ :: _, [] => false
  | c :: cs, d :: ds => c = d && leadsWith cs ds

/-- Whether the first character list occurs contiguously in the second. -/
def occursIn : List Char → List Char → Bool
  | frag, [] => frag.isEmpty
  | frag, c :: rest => leadsWith frag (c :: rest) || occursIn frag rest

/-- Whether a message string mentions a given fragment, i.e. the
fragment's characters occur contiguously in the message. -/
def mentions (msg frag : String) : Bool := occursIn frag.toList msg.toList

/-- Whether the `add` dispatch chain recognizes the first operand's type
(i.e. reaches a branch with second-operand checks rather than the final
`not supported` fallback); likewise below for the other operations. -/
def addHandles : VMVal → Bool
  | .v3 _ => true
  | .v4 _ => true
  | _ => false

/-- Whether the `sub` dispatch chain recognizes the first operand's type. -/
def subHandles : VMVal → Bool
  | .v3 _ => true
  | .v4 _ => true
  | _ => false

/-- Whether the `div` dispatch chain recognizes the first operand's type. -/
def divHandles : VMVal → Bool
  | .v3 _ => true
  | .v4 _ => true
  | _ => false

/-- C5 (counterexample): dispatching `neg` on a `Quaternion` — an
operand-type combination with no defined operation — throws the generic
`TypeError('not supported')`, whose message mentions neither the attempted
operation (`neg`, or any form of "negate") nor the operand's type
(`Quaternion`), refuting the claim that every such error names both. -/
theorem neg_quaternion_error_message_generic :
    neg (.quat Quaternion.identity) = .error "not supported" ∧
    mentions "not supported" "neg" = false ∧
    mentions "not supported" "Quaternion" = false := by
  refine ⟨rfl, ?_, ?_⟩ <;> decide

/-- C5 (amended): whenever a dispatched `add`/`sub`/`div` call throws and
the first operand's type is recognized by that operation's dispatch chain,
the message names the attempted operation and the first operand's
(unsupported-combination) type; `mul` recognizes all five runtime types and
its error messages always name both; every other thrown error — all of
`neg`'s, and those where the first operand's type is not recognized — is
the generic `'not supported'`, which names neither. -/
theorem dispatch_error_message_naming (a b : VMVal) (msg : String) :
    (add a b = .error msg → addHandles a = true →
      mentions msg a.typeName = true ∧ mentions msg "add" = true) ∧
    (add a b = .error msg → addHandles a = false → msg = "not supported") ∧
    (sub a b = .error msg → subHandles a = true →
      mentions msg a.typeName = true ∧ mentions msg "subtract" = true) ∧
    (sub a b = .error msg → subHandles a = false → msg = "not supported") ∧
    (div a b = .error msg → divHandles a = true →
      mentions msg a.typeName = true ∧ mentions msg "divide" = true) ∧
    (div a b = .error msg → divHandles a = false → msg = "not supported") ∧
    (mul a b = .error msg →
      mentions msg a.typeName = true ∧ mentions msg "multiply" = true) ∧
    (neg a = .error msg → msg = "not supported") := by
  cases a <;> cases b <;>
    refine ⟨?_, ?_, ?_, ?_, ?_, ?_, ?_, ?_⟩ <;>
    intro h <;>
    simp [add, sub, div, mul, neg, addHandles, subHandles, divHandles,
      VMVal.typeName] at h ⊢ <;>
    subst h <;>
    decide

/-- C5 (witness for the amended theorem): at the concrete unsupported
combination `add(Vector3(1,0,0), Vector4(0,0,0,0))` the thrown message
names both the operation and the first operand's type. -/
theorem dispatch_error_message_naming_witness :
    add (.v3 (Vector3.mk3 1 0 0)) (.v4 (Vector4.mk4 0 0 0 0))
        = .error "Vector3 should add Vector3" ∧
    addHandles (.v3 (Vector3.mk3 1 0 0)) = true ∧
    (mentions "Vector3 should add Vector3" "Vector3" = true ∧
      mentions "Vector3 should add Vector3" "add" = true) :=
  ⟨rfl, rfl,
    (dispatch_error_message_naming (.v3 (Vector3.mk3 1 0 0))
      (.v4 (Vector4.mk4 0 0 0 0)) "Vector3 should add Vector3").1 rfl rfl⟩

/-- C9: round-trip through backing data is exact. Constructing a new
`Vector3` from an existing vector's backing-data object (`new
Vector3(v.data)`, which installs the data as-is) and reading `x`, `y`, `z`
through the getters yields exactly the original components. -/
theorem vector3_data_roundtrip (v : Vector3) :
    (Vector3.ofData v.data).x = v.x ∧
    (Vector3.ofData v.data).y = v.y ∧
    (Vector3.ofData v.data).z = v.z :=
  ⟨rfl, rfl, rfl⟩

/-- A heap of `Vector3` backing-data objects, used to state mutation and
freshness properties: `cells` maps an object reference (address) to its
data, `next` is the next fresh address; a `Vector3` instance is identified
with the address of its backing data. -/
structure V3Heap where
  cells : Nat → Vector3Data
  next : Nat

/-- Allocation of a fresh backing-data object, as performed by the host
`vector3` constructor each time `new Vector3(x, y, z)` runs. -/
def V3Heap.alloc (h : V3Heap) (d : Vector3Data) : V3Heap × Nat :=
  (⟨fun i => if i = h.next then d else h.cells i, h.next + 1⟩, h.next)

/-- `Vector3.add(v1, v2)` as a heap operation: reads the operands'
components through the getters and allocates a new instance holding the
component-wise sum. -/
def V3Heap.addRef (h : V3Heap) (r1 r2 : Nat) : V3Heap × Nat :=
  h.alloc ⟨(h.cells r1).x + (h.cells r2).x, (h.cells r1).y + (h.cells r2).y,
    (h.cells r1).z + (h.cells r2).z⟩

/-- `Vector3.sub(v1, v2)` as a heap operation. -/
def V3Heap.subRef (h : V3Heap) (r1 r2 : Nat) : V3Heap × Nat :=
  h.alloc ⟨(h.cells r1).x - (h.cells r2).x, (h.cells r1).y - (h.cells r2).y,
    (h.cells r1).z - (h.cells r2).z⟩

/-- `Vector3.neg(v1)` as a heap operation. -/
def V3Heap.negRef (h : V3Heap) (r1 : Nat) : V3Heap × Nat :=
  h.alloc ⟨-(h.cells r1).x, -(h.cells r1).y, -(h.cells r1).z⟩

/-- `Vector3.mul(v1, n)` as a heap operation. -/
def V3Heap.mulRef (h : V3Heap) (r1 : Nat) (n : ℚ) : V3Heap × Nat :=
  h.alloc ⟨(h.cells r1).x * n, (h.cells r1).y * n, (h.cells r1).z * n⟩

/-- `Vector3.div(v1, n)` as a heap operation: `Vector3.mul(v1, 1 / n)`. -/
def V3Heap.divRef (h : V3Heap) (r1 : Nat) (n : ℚ) : V3Heap × Nat :=
  h.mulRef r1 (1 / n)

/-- The field setter `v.x = t` as a heap operation: `this.data.x = t`
writes into the instance's own backing data. -/
def V3Heap.setX (h : V3Heap) (r : Nat) (t : ℚ) : V3Heap :=
  ⟨fun i => if i = r then { h.cells r with x := t } else h.cells i, h.next⟩

/-- A heap of `Matrix4` backing-data objects (same conventions as
`V3Heap`). -/
structure M4Heap where
  cells : Nat → Matrix4Data
  next : Nat

/-- The field setter `m.c0 = c` as a heap operation: `this.data.c0 = c`
overwrites column 0 of the instance's own backing data in place. -/
def M4Heap.setC0 (h : M4Heap) (r : Nat) (c : Vector4Data) : M4Heap :=
  ⟨fun i => if i = r then
      { h.cells r with m00 := c.x, m01 := c.y, m02 := c.z, m03 := c.w }
    else h.cells i, h.next⟩

/-- The frame-and-freshness property of a binary arithmetic heap step `p`
from heap `h` on operands `r1`, `r2`: both operands' backing data are
unchanged, and the result is a distinct newly allocated instance. -/
def PureFresh (h : V3Heap) (p : V3Heap × Nat) (r1 r2 : Nat) : Prop :=
  p.1.cells r1 = h.cells r1 ∧ p.1.cells r2 = h.cells r2 ∧
  p.2 ≠ r1 ∧ p.2 ≠ r2 ∧ p.1.next = h.next + 1

/-- The conclusion of claim C8 at heap `h`, operand references `r1`, `r2`,
scalar operands `n` and `t`, and a `Matrix4` heap `hm` with reference `rm`
and column value `c`: the five arithmetic operations mutate neither
operand and return fresh instances, the result of `add` holds the
component-wise sum, and the `x` / `.c0` field setters mutate exactly the
targeted instance's own backing data without allocating. -/
def OpsPureSettersMutate (h : V3Heap) (r1 r2 : Nat) (n t : ℚ)
    (hm : M4Heap) (rm : Nat) (c : Vector4Data) : Prop :=
  PureFresh h (h.addRef r1 r2) r1 r2 ∧
  PureFresh h (h.subRef r1 r2) r1 r2 ∧
  PureFresh h (h.negRef r1) r1 r2 ∧
  PureFresh h (h.mulRef r1 n) r1 r2 ∧
  PureFresh h (h.divRef r1 n) r1 r2 ∧
  (h.addRef r1 r2).1.cells (h.addRef r1 r2).2 =
    ⟨(h.cells r1).x + (h.cells r2).x, (h.cells r1).y + (h.cells r2).y,
      (h.cells r1).z + (h.cells r2).z⟩ ∧
  (h.setX r1 t).cells r1 = { h.cells r1 with x := t } ∧
  (h.setX r1 t).next = h.next ∧
  (∀ r, r ≠ r1 → (h.setX r1 t).cells r = h.cells r) ∧
  (hm.setC0 rm c).cells rm =
    { hm.cells rm with m00 := c.x, m01 := c.y, m02 := c.z, m03 := c.w } ∧
  (hm.setC0 rm c).next = hm.next ∧
  (∀ r, r ≠ rm → (hm.setC0 rm c).cells r = hm.cells r)

/-- C8: arithmetic operations do not mutate their operands and return
distinct new instances, while field setters (`.x` on a vector, `.c0` on a
`Matrix4`) mutate the targeted instance's own backing data in place, with
no allocation and no effect on other instances. -/
theorem vector3_ops_pure_setters_mutate (h : V3Heap) (r1 r2 : Nat)
    (hr1 : r1 < h.next) (hr2 : r2 < h.next) (n t : ℚ)
    (hm : M4Heap) (rm : Nat) (c : Vector4Data) :
    OpsPureSettersMutate h r1 r2 n t hm rm c := by
  have e1 : r1 ≠ h.next := Nat.ne_of_lt hr1
  have e2 : r2 ≠ h.next := Nat.ne_of_lt hr2
  refine ⟨?_, ?_, ?_, ?_, ?_, ?_, ?_, rfl, ?_, ?_, rfl, ?_⟩
  all_goals
    simp [V3Heap.addRef, V3Heap.subRef, V3Heap.negRef, V3Heap.mulRef,
      V3Heap.divRef, V3Heap.alloc, V3Heap.setX, M4Heap.setC0, PureFresh,
      e1, e2, Ne.symm e1, Ne.symm e2]
  all_goals intro r hr
  all_goals simp [hr]

/-- Concrete two-cell `Vector3` heap for the C8 witness. -/
def v3HeapW : V3Heap := ⟨fun _ => ⟨0, 0, 0⟩, 2⟩

/-- Concrete one-cell `Matrix4` heap for the C8 witness. -/
def m4HeapW : M4Heap :=
  ⟨fun _ => ⟨1, 0, 0, 0, 0, 1, 0, 0, 0, 0, 1, 0, 0, 0, 0, 1⟩, 1⟩

/-- C8 (witness): the frame/freshness/mutation property at a concrete
two-cell heap with valid references. -/
theorem vector3_ops_pure_setters_mutate_witness :
    0 < v3HeapW.next ∧ 1 < v3HeapW.next ∧
    OpsPureSettersMutate v3HeapW 0 1 5 7 m4HeapW 0 ⟨1, 2, 3, 4⟩ :=
  ⟨by decide, by decide,
    vector3_ops_pure_setters_mutate v3HeapW 0 1 (by decide) (by decide)
      5 7 m4HeapW 0 ⟨1, 2, 3, 4⟩⟩

end Vmath
